import Mathlib

/-!
Shallow embedding of the real-time music-generation / gesture-control system
(`integrated_music_gesture_control.py`, with the corresponding paths of
`realtime_midi_generator.py`), together with theorems settling the frozen
claims about its specification.

Floating-point values of the Python source are modelled as rationals (ℚ);
machine integers as ℕ/ℤ.  MIDI output is modelled as the list of messages
handed to the device, in order.  Python dictionaries are modelled as
association lists where an update conses the new binding (lookup returns the
most recent binding, matching dict semantics).
-/

/-- A MIDI wire message, as built by `mido.Message` in the source:
`note_on`/`note_off` carry a pitch and a velocity, `control_change` carries a
controller number, a value and a channel. -/
inductive Msg : Type where
  | note_on (pitch : ℕ) (velocity : ℕ)
  | note_off (pitch : ℕ) (velocity : ℕ)
  | control_change (control : ℕ) (value : ℤ) (channel : ℕ)
deriving DecidableEq

/-- Recogniser for note-off messages. -/
def Msg.isNoteOff : Msg → Bool
  | .note_off _ _ => true
  | _ => false

/-- An observable device event: a message sent to the port, or the port being
closed (`midi_out.close()`). -/
inductive DevEvent : Type where
  | msg (m : Msg)
  | closed
deriving DecidableEq

/-- State of `GestureMIDIController`'s deduplication machinery
(`integrated_music_gesture_control.py` lines 66-105): the `last_cc_values`
dictionary keyed by `(cc_number, channel)`, together with the list of
messages sent to the device so far. -/
structure CCState : Type where
  last_cc_values : List ((ℕ × ℕ) × ℤ)
  msgs : List Msg
deriving DecidableEq

/-- Lookup in the association list modelling the `last_cc_values` dict
(first binding wins; updates cons at the front, so this is the most recent
binding, matching Python dict assignment). -/
def lookupCC : List ((ℕ × ℕ) × ℤ) → ℕ × ℕ → Option ℤ
  | [], _ => none
  | (k, v) :: rest, key => if k = key then some v else lookupCC rest key

/-- `GestureMIDIController.send_cc` (lines 86-105): if the key has a recorded
last value within distance `< 2` of the new value, return without sending;
otherwise record the value and send the `control_change` message. -/
def send_cc (st : CCState) (cc_number : ℕ) (value : ℤ) (channel : ℕ) : CCState :=
  match lookupCC st.last_cc_values (cc_number, channel) with
  | some prev =>
      if |prev - value| < 2 then st
      else
        { last_cc_values := ((cc_number, channel), value) :: st.last_cc_values,
          msgs := st.msgs ++ [Msg.control_change cc_number value channel] }
  | none =>
      { last_cc_values := ((cc_number, channel), value) :: st.last_cc_values,
        msgs := st.msgs ++ [Msg.control_change cc_number value channel] }

/-- `GestureMIDIController.normalize_to_midi` (lines 75-79): scale a value
from `[min_val, max_val]` into `[0,1]`, clamp, multiply by 127 and truncate
to an integer (the intermediate is nonnegative, so Python `int` truncation
is the floor). -/
def normalize_to_midi (value min_val max_val : ℚ) : ℤ :=
  ⌊(max 0 (min 1 ((value - min_val) / (max_val - min_val)))) * 127⌋

/-- Appending to a `collections.deque(maxlen=cap)`: push on the right, and
drop from the left whatever exceeds the capacity. -/
def pushCap (cap : ℕ) (buf : List ℚ) (v : ℚ) : List ℚ :=
  let b := buf ++ [v]
  b.drop (b.length - cap)

/-- `GestureMIDIController.smooth_value` (lines 81-84): append the sample to
the capacity-5 deque and return the updated buffer with the mean of its
elements. -/
def smooth_value (buf : List ℚ) (new_value : ℚ) : List ℚ × ℚ :=
  let b := pushCap 5 buf new_value
  (b, b.sum / (b.length : ℚ))

/-- The discrete gesture labels that `process_hand_data` branches on
(lines 142-154); every other label falls through with no gesture send. -/
inductive Gesture : Type where
  | openPalm
  | closedFist
  | peaceSign
  | rockOn
  | other
deriving DecidableEq

/-- The gesture-dependent sends at the end of `process_hand_data`
(lines 141-154): CC 93 (chorus) and CC 1 (modulation) overrides. -/
def gesture_sends (g : Gesture) (st : CCState) : CCState :=
  match g with
  | .openPalm => send_cc st 93 127 0
  | .closedFist => send_cc (send_cc st 93 0 0) 1 0 0
  | .peaceSign => send_cc st 1 64 0
  | .rockOn => send_cc st 1 127 0
  | .other => st

/-- State of a `GestureMIDIController` (lines 66-73): the two smoothing
deques (`position_buffer_x`, `position_buffer_y`, capacity 5) and the
dedup/output state. -/
structure GCState : Type where
  position_buffer_x : List ℚ
  position_buffer_y : List ℚ
  cc : CCState
deriving DecidableEq

/-- `GestureMIDIController.process_hand_data` (lines 107-154).  `index_x`,
`index_y` are the index-fingertip coordinates; `dist` is the Euclidean
distance `sqrt((thumb.x-index.x)^2 + (thumb.y-index.y)^2)` computed by the
source at line 136, passed here as a value (the square root of a rational is
irrational in general, so the caller supplies the distance itself).  X and Y
are smoothed through their buffers; the pinch distance is mapped directly;
then the gesture branch runs. -/
def process_hand_data (st : GCState) (index_x index_y dist : ℚ) (g : Gesture) : GCState :=
  let sx := smooth_value st.position_buffer_x index_x
  let sy := smooth_value st.position_buffer_y index_y
  let c1 := send_cc st.cc 74 (normalize_to_midi sx.2 0 1) 0
  let c2 := send_cc c1 91 (normalize_to_midi (1 - sy.2) 0 1) 0
  let c3 := send_cc c2 71 (normalize_to_midi dist 0 (3/10)) 0
  { position_buffer_x := sx.1, position_buffer_y := sy.1, cc := gesture_sends g c3 }

/-- The two messages emitted by `IntegratedMusicGestureSystem.play_note`
(lines 406-417): a clamped note-on, then (after the blocking sleep) the
matching note-off. -/
def play_note_msgs (pitch : ℕ) (velocity : ℕ) : List Msg :=
  let p := max 0 (min 127 pitch)
  let v := max 0 (min 127 velocity)
  [Msg.note_on p v, Msg.note_off p 0]

/-- One observable cause of device traffic during a session: either the
generation loop plays a note (raw predictor output attached), or the gesture
thread processes one hand sample. -/
inductive Event : Type where
  | genNote (pitch : ℕ) (rawStep rawDur : ℚ)
  | hand (index_x index_y dist : ℚ) (g : Gesture)

/-- Effect of one session event on the controller/output state: a generated
note appends its note-on/note-off pair; a hand sample runs
`process_hand_data`. -/
def step_event (velocity : ℕ) (st : GCState) (e : Event) : GCState :=
  match e with
  | .genNote p _ _ =>
      { st with cc := { st.cc with msgs := st.cc.msgs ++ play_note_msgs p velocity } }
  | .hand ix iy d g => process_hand_data st ix iy d g

/-- Initial controller state at session start: empty smoothing buffers,
empty `last_cc_values`, nothing sent yet. -/
def init_state : GCState := ⟨[], [], ⟨[], []⟩⟩

/-- All messages the session body sends for a given interleaving of events,
starting from the fresh state. -/
def session_msgs (velocity : ℕ) (events : List Event) : List Msg :=
  ((events.foldl (step_event velocity) init_state)).cc.msgs

/-- The note-off sweep of the `finally` block (lines 498-500):
`for note in range(128): send(note_off, velocity=0)`. -/
def all_note_off_msgs : List Msg :=
  (List.range 128).map (fun n => Msg.note_off n 0)

/-- The control-reset sweep of the `finally` block (lines 502-504):
`for cc in [1, 11, 71, 74, 91, 93]: send(control_change, value=0)`. -/
def reset_cc_msgs : List Msg :=
  [1, 11, 71, 74, 91, 93].map (fun cc => Msg.control_change cc 0 0)

/-- The full cleanup message sequence of the `finally` block, in order. -/
def cleanup_msgs : List Msg := all_note_off_msgs ++ reset_cc_msgs

/-- Why `IntegratedMusicGestureSystem.generate` left its loop: the note
count limit was reached, the user pressed Ctrl-C (`KeyboardInterrupt`,
caught at line 491), or the predictor raised a fatal error (uncaught, but
the `finally` block still runs before it propagates). -/
inductive TermReason : Type where
  | normal
  | keyboardInterrupt
  | fatalPredictorError

/-- The device-event trace of one whole `generate` call (lines 437-508).
Python `try`/`except KeyboardInterrupt`/`finally` semantics: on each of the
three exit paths the `finally` block runs, sending `cleanup_msgs` and then
closing the port; each match arm below translates one exit path. -/
def generateTrace (velocity : ℕ) (events : List Event) (r : TermReason) : List DevEvent :=
  match r with
  | .normal =>
      (session_msgs velocity events ++ cleanup_msgs).map DevEvent.msg ++ [DevEvent.closed]
  | .keyboardInterrupt =>
      (session_msgs velocity events ++ cleanup_msgs).map DevEvent.msg ++ [DevEvent.closed]
  | .fatalPredictorError =>
      (session_msgs velocity events ++ cleanup_msgs).map DevEvent.msg ++ [DevEvent.closed]

/-- Python `for m in msgs: send(m)` where `send` may raise: every message up
to and including the first failing one is attempted (the send is invoked on
it); a raised exception aborts the rest of the loop. -/
def attempt_all (fail : Msg → Bool) : List Msg → List Msg
  | [] => []
  | m :: ms => if fail m then [m] else m :: attempt_all fail ms

/-- The cleanup messages actually attempted by the `finally` block when the
device fails on the messages selected by `fail` (there is no per-send
exception handling in the source, lines 498-504). -/
def attempted_cleanup (fail : Msg → Bool) : List Msg :=
  attempt_all fail cleanup_msgs

/-- A device that fails exactly on the very first cleanup message
(the note-off for pitch 0). -/
def fail_first_noteoff : Msg → Bool :=
  fun m => decide (m = Msg.note_off 0 0)

/-- IEEE-style value of a float computation: a finite rational, a signed
infinity, or NaN.  Needed because `predict_next_note` divides the pitch
logits by the temperature with no zero check. -/
inductive FVal : Type where
  | num (q : ℚ)
  | posInf
  | negInf
  | nan
deriving DecidableEq

/-- A float value is finite when it is an ordinary number. -/
def FVal.isFinite : FVal → Bool
  | .num _ => true
  | _ => false

/-- Division of a finite float by a finite float under IEEE semantics:
`q / 0` is `+inf` for positive `q`, `-inf` for negative `q`, NaN for
`0 / 0`; otherwise the exact quotient.  This is what numpy performs at
`pitch_logits = predictions['pitch'] / temperature` — it warns but never
raises. -/
def fdivQ (q t : ℚ) : FVal :=
  if t = 0 then
    if 0 < q then .posInf else if q < 0 then .negInf else .nan
  else .num (q / t)

/-- Error taxonomy of the specification's NoteSampler.  The source never
raises it; the `Except` result type makes the spec's claim statable. -/
inductive SamplerError : Type where
  | invalidTemperature
deriving DecidableEq

/-- `predict_next_note` (`integrated_music_gesture_control.py` lines
393-404, identically `realtime_midi_generator.py` lines 150-161): divide
every pitch logit by the temperature (no validation — a zero temperature is
passed straight to the division), floor `step` and `duration` at 0.  The
categorical draw from the scaled logits is randomness outside the embedding;
the scaled logits themselves are returned. -/
def predict_next_note (logits : List ℚ) (rawStep rawDur : ℚ) (temperature : ℚ) :
    Except SamplerError (List FVal × ℚ × ℚ) :=
  .ok (logits.map (fun q => fdivQ q temperature), max 0 rawStep, max 0 rawDur)

/-- Error taxonomy of the specification's ContextWindow seeding.  The source
never raises it; the `Except` result type makes the spec's claim statable. -/
inductive SeedError : Type where
  | invalidSeed
deriving DecidableEq

/-- A note as stored in the context window after normalization:
`(pitch / vocab_size, step, duration)` with `vocab_size = 128`
(the division by `np.array([self.vocab_size, 1, 1])`). -/
def normalize_note (n : ℚ × ℚ × ℚ) : ℚ × ℚ × ℚ :=
  (n.1 / 128, n.2.1, n.2.2)

/-- The default C-major-scale seed of `load_seed_sequence` (lines 251-261):
`seq_length` rows of `[60 + c_major[i % 8], 0.5, 0.4]`, before
normalization. -/
def default_seed_notes (seq_length : ℕ) : List (ℚ × ℚ × ℚ) :=
  (List.range seq_length).map
    (fun i => ((60 + [0, 2, 4, 5, 7, 9, 11, 12].getD (i % 8) 0 : ℚ), 1/2, 2/5))

/-- `load_seed_sequence` (lines 240-262): a successfully loaded seed file
(`some seed`) is normalized and installed with NO length validation; a
missing or unreadable file (`none`) falls back to the default C-major seed.
No path raises. -/
def load_seed_sequence (seq_length : ℕ) (loaded : Option (List (ℚ × ℚ × ℚ))) :
    Except SeedError (List (ℚ × ℚ × ℚ)) :=
  match loaded with
  | some seed => .ok (seed.map normalize_note)
  | none => .ok ((default_seed_notes seq_length).map normalize_note)

/-- `update_sequence` (lines 419-427, identically
`realtime_midi_generator.py` lines 172-180): `np.delete(current_notes, 0)`
drops the oldest row, then the normalized new note is appended at the
end. -/
def update_sequence (ws : List (ℚ × ℚ × ℚ)) (pitch : ℕ) (step duration : ℚ) :
    List (ℚ × ℚ × ℚ) :=
  ws.drop 1 ++ [normalize_note ((pitch : ℚ), step, duration)]

/-- The floor at 0 applied to the raw step prediction
(`tf.maximum(0, ...)` at line 401). -/
def floored_step (rawStep : ℚ) : ℚ := max 0 rawStep

/-- The duration actually kept by the generation loop (line 458):
`max(min_duration, min(max_duration, duration))` applied to the raw
prediction already floored at 0 (line 402). -/
def clamped_duration (min_duration max_duration rawDur : ℚ) : ℚ :=
  max min_duration (min max_duration (max 0 rawDur))

/-- The duration handed to `play_note` (lines 462, 484):
the clamped duration multiplied by the speed factor. -/
def played_duration (min_duration max_duration speed rawDur : ℚ) : ℚ :=
  clamped_duration min_duration max_duration rawDur * speed

/-- The visualization event built at lines 471-480 (the note name and
wall-clock timestamp are presentation-only and omitted): pitch, the
speed-scaled step and duration, and the velocity. -/
structure VisEvent : Type where
  pitch : ℕ
  step : ℚ
  duration : ℚ
  velocity : ℕ
deriving DecidableEq

/-- One iteration of the `generate` loop (lines 455-489) given the raw
predictor output `r = (pitch, rawStep, rawDur)`: floor the step, clamp the
duration, scale both by `speed` for the broadcast event and for playback,
and append the UNSCALED note to the context window.  Returns the new window,
the broadcast event, and the duration slept in `play_note`. -/
def gen_iter (min_duration max_duration speed : ℚ) (velocity : ℕ)
    (ws : List (ℚ × ℚ × ℚ)) (r : ℕ × ℚ × ℚ) :
    List (ℚ × ℚ × ℚ) × VisEvent × ℚ :=
  let step := floored_step r.2.1
  let duration := clamped_duration min_duration max_duration r.2.2
  let duration_adjusted := duration * speed
  let step_adjusted := step * speed
  (update_sequence ws r.1 step duration,
   ⟨r.1, step_adjusted, duration_adjusted, velocity⟩,
   duration_adjusted)

/-- The context window after running the generation loop over a list of raw
predictor outputs. -/
def run_iters (min_duration max_duration speed : ℚ) (velocity : ℕ)
    (ws : List (ℚ × ℚ × ℚ)) (rs : List (ℕ × ℚ × ℚ)) : List (ℚ × ℚ × ℚ) :=
  rs.foldl (fun w r => (gen_iter min_duration max_duration speed velocity w r).1) ws

/-- A message is "covered by the shutdown reset" when, if it is a
control-change, its controller number gets a value-0 reset in the cleanup
sequence.  Non-CC messages are trivially covered. -/
def cc_is_reset (m : Msg) : Prop :=
  match m with
  | .control_change cc _ _ => Msg.control_change cc 0 0 ∈ cleanup_msgs
  | _ => True

/-- The values of the control-change messages for one controller number, in
send order (used to observe the per-axis stream of sent values). -/
def cc_values_for (cc : ℕ) (msgs : List Msg) : List ℤ :=
  msgs.filterMap (fun m => match m with
    | .control_change c v _ => if c = cc then some v else none
    | _ => none)

/-! ## Helper lemmas -/

/-- `send_cc` either sends nothing (dedup suppression) or appends exactly the
one `control_change` message it was asked to send. -/
theorem send_cc_msgs_cases (st : CCState) (c : ℕ) (v : ℤ) (ch : ℕ) :
    (send_cc st c v ch).msgs = st.msgs ∨
    (send_cc st c v ch).msgs = st.msgs ++ [Msg.control_change c v ch] := by
  unfold send_cc
  cases h : lookupCC st.last_cc_values (c, ch) with
  | none => right; rfl
  | some prev =>
      by_cases habs : |prev - v| < 2
      · left; simp [habs]
      · right; simp [habs]

/-- C4 helper: length bookkeeping for one window append. -/
theorem update_sequence_length (ws : List (ℚ × ℚ × ℚ)) (p : ℕ) (s d : ℚ) :
    (update_sequence ws p s d).length = ws.length - 1 + 1 := by
  simp [update_sequence]

/-- Folding window appends preserves a nonzero length. -/
theorem run_updates_length (n : ℕ) (hn : 0 < n) :
    ∀ (notes : List (ℕ × ℚ × ℚ)) (ws : List (ℚ × ℚ × ℚ)), ws.length = n →
      (notes.foldl (fun w x => update_sequence w x.1 x.2.1 x.2.2) ws).length = n := by
  intro notes
  induction notes with
  | nil => intro ws h; simpa using h
  | cons x xs ih =>
      intro ws h
      simp only [List.foldl_cons]
      exact ih _ (by rw [update_sequence_length, h]; omega)

/-- The window produced by one generation iteration does not depend on the
speed multiplier (it is built from the unscaled step and duration). -/
theorem run_iters_speed_indep (minD maxD s₁ s₂ : ℚ) (vel : ℕ) :
    ∀ (rs : List (ℕ × ℚ × ℚ)) (ws : List (ℚ × ℚ × ℚ)),
      run_iters minD maxD s₁ vel ws rs = run_iters minD maxD s₂ vel ws rs := by
  intro rs
  induction rs with
  | nil => intro ws; rfl
  | cons r rest ih =>
      intro ws
      show run_iters minD maxD s₁ vel ((gen_iter minD maxD s₁ vel ws r).1) rest
        = run_iters minD maxD s₂ vel ((gen_iter minD maxD s₂ vel ws r).1) rest
      exact ih _

/-! ## C3 — context window length and FIFO order -/

/-- C3: every append to the context window drops the oldest note and pushes
the new normalized note at the end, so the length is unchanged and stays
equal to `sequenceLength` for any run of appends that starts from a
`sequenceLength`-long window. -/
theorem context_window_append_fifo (n : ℕ) (hn : 0 < n) (ws : List (ℚ × ℚ × ℚ))
    (h : ws.length = n) (pitch : ℕ) (step duration : ℚ)
    (notes : List (ℕ × ℚ × ℚ)) :
    (update_sequence ws pitch step duration).length = n ∧
    update_sequence ws pitch step duration
      = ws.tail ++ [normalize_note ((pitch : ℚ), step, duration)] ∧
    (notes.foldl (fun w x => update_sequence w x.1 x.2.1 x.2.2) ws).length = n := by
  refine ⟨?_, ?_, run_updates_length n hn notes ws h⟩
  · rw [update_sequence_length, h]; omega
  · simp [update_sequence, List.drop_one]

/-- Witness for C3 at the default 25-note seed shape. -/
theorem context_window_append_fifo_witness :
    (update_sequence (List.replicate 25 ((60 : ℚ)/128, 1/2, 2/5)) 60 (1/2) (2/5)).length
      = 25 :=
  (context_window_append_fifo 25 (by norm_num)
    (List.replicate 25 ((60 : ℚ)/128, 1/2, 2/5)) (by simp) 60 (1/2) (2/5) []).1

/-! ## C4 — dedup suppression threshold -/

/-- C4: with a recorded last-sent value for `(cc_number, channel)`, a new
value is suppressed (state unchanged, nothing sent) precisely when its
distance to the last-sent value is below 2; otherwise exactly one
`control_change` is sent and the recorded value is updated. -/
theorem send_cc_dedup_threshold (st : CCState) (cc_number channel : ℕ) (value prev : ℤ)
    (h : lookupCC st.last_cc_values (cc_number, channel) = some prev) :
    (|prev - value| < 2 → send_cc st cc_number value channel = st) ∧
    (2 ≤ |prev - value| →
      (send_cc st cc_number value channel).msgs
        = st.msgs ++ [Msg.control_change cc_number value channel] ∧
      lookupCC (send_cc st cc_number value channel).last_cc_values (cc_number, channel)
        = some value) := by
  constructor
  · intro hlt
    unfold send_cc
    rw [h]
    simp [hlt]
  · intro hge
    have hnlt : ¬ |prev - value| < 2 := not_lt.mpr hge
    unfold send_cc
    rw [h]
    simp [hnlt, lookupCC]

/-- Witness for C4: the `50 → 51 → 53` scenario from a last-sent baseline of
50 — the 51 update is suppressed, the 53 update is the only device send. -/
theorem send_cc_dedup_threshold_witness :
    (send_cc (send_cc (⟨[((74, 0), 50)], []⟩ : CCState) 74 51 0) 74 53 0).msgs
      = [Msg.control_change 74 53 0] := by
  have h1 := (send_cc_dedup_threshold ⟨[((74, 0), 50)], []⟩ 74 0 51 50 rfl).1 (by decide)
  rw [h1]
  have h2 := (send_cc_dedup_threshold ⟨[((74, 0), 50)], []⟩ 74 0 53 50 rfl).2 (by decide)
  simpa using h2.1

/-! ## C10 — first value always sent; state updated only on a send -/

/-- C10: for a key with no recorded value the computed value is always sent
and recorded; a suppressed update leaves the whole state untouched; and the
recorded map changes only when a message is actually appended. -/
theorem send_cc_first_value_always_sent (st : CCState) (cc_number channel : ℕ) (value : ℤ) :
    (lookupCC st.last_cc_values (cc_number, channel) = none →
      (send_cc st cc_number value channel).msgs
        = st.msgs ++ [Msg.control_change cc_number value channel] ∧
      lookupCC (send_cc st cc_number value channel).last_cc_values (cc_number, channel)
        = some value) ∧
    (∀ prev, lookupCC st.last_cc_values (cc_number, channel) = some prev →
      |prev - value| < 2 → send_cc st cc_number value channel = st) ∧
    ((send_cc st cc_number value channel).last_cc_values = st.last_cc_values ∨
      (send_cc st cc_number value channel).msgs
        = st.msgs ++ [Msg.control_change cc_number value channel]) := by
  refine ⟨?_, ?_, ?_⟩
  · intro h
    unfold send_cc
    rw [h]
    simp [lookupCC]
  · intro prev h hlt
    unfold send_cc
    rw [h]
    simp [hlt]
  · unfold send_cc
    cases h : lookupCC st.last_cc_values (cc_number, channel) with
    | none => right; rfl
    | some prev =>
        by_cases hlt : |prev - value| < 2
        · left; simp [hlt]
        · right; simp [hlt]

/-- Witness for C10: on a fresh controller the very first value for key
`(74, 0)` is sent and recorded. -/
theorem send_cc_first_value_always_sent_witness :
    (send_cc (⟨[], []⟩ : CCState) 74 50 0).msgs = [Msg.control_change 74 50 0] ∧
    lookupCC (send_cc (⟨[], []⟩ : CCState) 74 50 0).last_cc_values (74, 0) = some 50 := by
  have h := (send_cc_first_value_always_sent ⟨[], []⟩ 74 0 50).1 rfl
  simpa using h

/-! ## C5 — speed multiplier affects only playback -/

/-- C5: the broadcast event and the played duration use the speed-scaled
step and duration, while the context window absorbs the unscaled note; two
runs over the same raw predictor outputs that differ only in `speed` end in
identical context windows. -/
theorem speed_affects_only_playback (min_duration max_duration s₁ s₂ : ℚ) (velocity : ℕ)
    (ws : List (ℚ × ℚ × ℚ)) (rs : List (ℕ × ℚ × ℚ)) (r : ℕ × ℚ × ℚ) :
    run_iters min_duration max_duration s₁ velocity ws rs
      = run_iters min_duration max_duration s₂ velocity ws rs ∧
    (gen_iter min_duration max_duration s₁ velocity ws r).2.1.step
      = floored_step r.2.1 * s₁ ∧
    (gen_iter min_duration max_duration s₁ velocity ws r).2.1.duration
      = clamped_duration min_duration max_duration r.2.2 * s₁ ∧
    (gen_iter min_duration max_duration s₁ velocity ws r).2.2
      = clamped_duration min_duration max_duration r.2.2 * s₁ ∧
    (gen_iter min_duration max_duration s₁ velocity ws r).1
      = update_sequence ws r.1 (floored_step r.2.1)
          (clamped_duration min_duration max_duration r.2.2) :=
  ⟨run_iters_speed_indep min_duration max_duration s₁ s₂ velocity rs ws,
   rfl, rfl, rfl, rfl⟩

/-! ## C2 — duration clamping and step flooring -/

/-- Counterexample for C2 as stated: with `min_duration = 0.1`,
`max_duration = 2`, `speed = 2` and a raw predicted duration of 5, the
stored duration is clamped to 2 but the duration actually played is 4,
strictly above `max_duration`. -/
theorem played_duration_exceeds_max :
    clamped_duration (1/10) 2 5 = 2 ∧
    played_duration (1/10) 2 2 5 = 4 ∧
    (2 : ℚ) < played_duration (1/10) 2 2 5 := by
  refine ⟨?_, ?_, ?_⟩ <;> norm_num [clamped_duration, played_duration]

/-- C2 (amended): whenever `min_duration ≤ max_duration`, the duration the
loop stores (and feeds back into the context window) is clamped into
`[min_duration, max_duration]` for every sign and magnitude of the raw
prediction, and the step is floored at 0; the duration actually played is
the clamped duration multiplied by the speed factor. -/
theorem duration_clamped_step_floored (min_duration max_duration speed rawStep rawDur : ℚ)
    (h : min_duration ≤ max_duration) :
    min_duration ≤ clamped_duration min_duration max_duration rawDur ∧
    clamped_duration min_duration max_duration rawDur ≤ max_duration ∧
    0 ≤ floored_step rawStep ∧
    played_duration min_duration max_duration speed rawDur
      = clamped_duration min_duration max_duration rawDur * speed :=
  ⟨le_max_left _ _, max_le h (min_le_left _ _), le_max_left _ _, rfl⟩

/-- Witness for C2 (amended) at the default configuration and a negative raw
duration. -/
theorem duration_clamped_step_floored_witness :
    (1/10 : ℚ) ≤ clamped_duration (1/10) 2 (-5) ∧
    clamped_duration (1/10) 2 (-5) ≤ 2 ∧
    (0 : ℚ) ≤ floored_step (-3) := by
  have h := duration_clamped_step_floored (1/10) 2 1 (-3) (-5) (by norm_num)
  exact ⟨h.1, h.2.1, h.2.2.1⟩

/-! ## C6 — temperature zero -/

/-- Counterexample for C6 as stated: sampling with `temperature == 0` does
NOT fail — the division is performed with no validation and the call
returns normally, the positive logits mapped to `+inf` and the negative
ones to `-inf`. -/
theorem predict_temperature_zero_no_failure :
    (predict_next_note [1, 2, -1] (1/2) (2/5) 0).isOk = true ∧
    predict_next_note [1, 2, -1] (1/2) (2/5) 0
      = Except.ok ([FVal.posInf, FVal.posInf, FVal.negInf], 1/2, 2/5) := by
  constructor
  · rfl
  · norm_num [predict_next_note, fdivQ]

/-- C6 (amended): `predict_next_note` performs no temperature validation and
never raises; at `temperature == 0` it returns normally and every nonzero
pitch logit is divided to a non-finite (infinite) value under IEEE
semantics. -/
theorem predict_no_temperature_validation (logits : List ℚ) (rawStep rawDur temperature : ℚ) :
    predict_next_note logits rawStep rawDur temperature
      = Except.ok (logits.map (fun q => fdivQ q temperature),
          max 0 rawStep, max 0 rawDur) ∧
    (temperature = 0 → ∀ q : ℚ, q ≠ 0 → (fdivQ q temperature).isFinite = false) := by
  refine ⟨rfl, ?_⟩
  intro ht q hq
  subst ht
  rcases lt_trichotomy q 0 with h | h | h
  · simp [fdivQ, FVal.isFinite, h, asymm h]
  · exact absurd h hq
  · simp [fdivQ, FVal.isFinite, h]

/-- Witness for C6 (amended): the logit 1 at temperature 0 becomes a
non-finite value rather than an error. -/
theorem predict_no_temperature_validation_witness :
    (fdivQ 1 0).isFinite = false :=
  (predict_no_temperature_validation [1] 0 0 0).2 rfl 1 (by norm_num)

/-! ## C7 — seeding without length validation -/

/-- Counterexample for C7 as stated: a successfully loaded 3-note seed —
shorter than the 25-note `sequenceLength` — is accepted without any error;
the window simply ends up with length 3. -/
theorem seed_of_wrong_length_accepted :
    load_seed_sequence 25 (some [(60, 1/2, 2/5), (62, 1/2, 2/5), (64, 1/2, 2/5)])
      = Except.ok [(60/128, 1/2, 2/5), (62/128, 1/2, 2/5), (64/128, 1/2, 2/5)] ∧
    ((load_seed_sequence 25
        (some [(60, 1/2, 2/5), (62, 1/2, 2/5), (64, 1/2, 2/5)])).toOption.getD []).length
      = 3 ∧
    (3 : ℕ) < 25 := by
  refine ⟨?_, ?_, by norm_num⟩
  · norm_num [load_seed_sequence, normalize_note]
  · rfl

/-- C7 (amended): seeding never fails — a loaded seed of ANY length is
normalized and installed as the window with no length validation, and only
when no seed could be loaded does the default `sequenceLength`-long C-major
seed take its place. -/
theorem load_seed_no_validation (seq_length : ℕ) (seed : List (ℚ × ℚ × ℚ)) :
    load_seed_sequence seq_length (some seed) = Except.ok (seed.map normalize_note) ∧
    (seed.map normalize_note).length = seed.length ∧
    load_seed_sequence seq_length none
      = Except.ok ((default_seed_notes seq_length).map normalize_note) ∧
    ((default_seed_notes seq_length).map normalize_note).length = seq_length := by
  refine ⟨rfl, by simp, rfl, by simp [default_seed_notes]⟩

/-! ## C8 — cleanup aborts at the first failing send -/

/-- A loop of sends where every send succeeds attempts every message. -/
theorem attempt_all_success (fail : Msg → Bool) (h : ∀ m, fail m = false) :
    ∀ ms : List Msg, attempt_all fail ms = ms := by
  intro ms
  induction ms with
  | nil => rfl
  | cons m rest ih => simp [attempt_all, h m, ih]

/-- Shape of an exception-aborted send loop: the successful prefix followed
by the first failing message, nothing after it. -/
theorem attempt_all_spec (fail : Msg → Bool) :
    ∀ ms : List Msg, attempt_all fail ms
      = ms.takeWhile (fun m => !fail m) ++ (ms.dropWhile (fun m => !fail m)).take 1 := by
  intro ms
  induction ms with
  | nil => rfl
  | cons m rest ih =>
      by_cases h : fail m
      · simp [attempt_all, h, List.takeWhile_cons, List.dropWhile_cons]
      · simp [attempt_all, h, List.takeWhile_cons, List.dropWhile_cons, ih]

set_option maxRecDepth 4000 in
/-- Counterexample for C8 as stated: when the device fails on the very first
cleanup message (the note-off for pitch 0), that message is the ONLY one
attempted — the remaining 133 cleanup messages (127 note-offs and all six
control resets) are never attempted. -/
theorem cleanup_failure_stops_rest :
    attempted_cleanup fail_first_noteoff = [Msg.note_off 0 0] ∧
    cleanup_msgs.length = 134 ∧
    (1 : ℕ) < 134 := by
  refine ⟨by decide, by decide, by norm_num⟩

/-- C8 (amended): the cleanup loops have no per-send exception handling — a
failing send aborts the rest of the cleanup, so the attempted messages are
exactly the successful prefix plus the first failing message; only when
every send succeeds is every cleanup message attempted. -/
theorem cleanup_aborts_on_failure (fail : Msg → Bool) :
    attempted_cleanup fail
      = cleanup_msgs.takeWhile (fun m => !fail m)
        ++ (cleanup_msgs.dropWhile (fun m => !fail m)).take 1 ∧
    ((∀ m, fail m = false) → attempted_cleanup fail = cleanup_msgs) :=
  ⟨attempt_all_spec fail cleanup_msgs,
   fun h => attempt_all_success fail h cleanup_msgs⟩

/-- Witness for C8 (amended): a fully healthy device gets all cleanup
messages attempted. -/
theorem cleanup_aborts_on_failure_witness :
    attempted_cleanup (fun _ => false) = cleanup_msgs :=
  (cleanup_aborts_on_failure (fun _ => false)).2 (fun _ => rfl)

/-! ## C1 — shutdown cleanup covers the session -/

/-- `send_cc` only ever emits a control-change for the controller number it
was called with, so coverage is preserved whenever that number is reset by
the cleanup sequence. -/
theorem send_cc_preserves_reset (st : CCState) (c : ℕ) (v : ℤ) (ch : ℕ)
    (hc : Msg.control_change c 0 0 ∈ cleanup_msgs)
    (h : ∀ m ∈ st.msgs, cc_is_reset m) :
    ∀ m ∈ (send_cc st c v ch).msgs, cc_is_reset m := by
  rcases send_cc_msgs_cases st c v ch with he | he <;> rw [he]
  · exact h
  · intro m hm
    rcases List.mem_append.mp hm with hm | hm
    · exact h m hm
    · simp only [List.mem_singleton] at hm
      subst hm
      simpa [cc_is_reset] using hc

/-- The gesture branch sends only CC 93 and CC 1, both of which are reset by
the cleanup sequence. -/
theorem gesture_sends_preserves_reset (g : Gesture) (st : CCState)
    (h : ∀ m ∈ st.msgs, cc_is_reset m) :
    ∀ m ∈ (gesture_sends g st).msgs, cc_is_reset m := by
  cases g
  case openPalm => exact send_cc_preserves_reset _ _ _ _ (by decide) h
  case closedFist =>
      exact send_cc_preserves_reset _ _ _ _ (by decide)
        (send_cc_preserves_reset _ _ _ _ (by decide) h)
  case peaceSign => exact send_cc_preserves_reset _ _ _ _ (by decide) h
  case rockOn => exact send_cc_preserves_reset _ _ _ _ (by decide) h
  case other => exact h

/-- One hand sample sends only CC 74, 91, 71 and the gesture overrides, all
covered by the cleanup resets. -/
theorem process_hand_data_preserves_reset (st : GCState) (ix iy d : ℚ) (g : Gesture)
    (h : ∀ m ∈ st.cc.msgs, cc_is_reset m) :
    ∀ m ∈ (process_hand_data st ix iy d g).cc.msgs, cc_is_reset m := by
  simp only [process_hand_data]
  apply gesture_sends_preserves_reset
  apply send_cc_preserves_reset _ _ _ _ (by decide)
  apply send_cc_preserves_reset _ _ _ _ (by decide)
  exact send_cc_preserves_reset _ _ _ _ (by decide) h

/-- Every message a session event adds to the trace is covered by the
shutdown resets (note-on/off trivially, control-changes by the fixed reset
list). -/
theorem step_event_preserves_reset (vel : ℕ) (st : GCState) (e : Event)
    (h : ∀ m ∈ st.cc.msgs, cc_is_reset m) :
    ∀ m ∈ (step_event vel st e).cc.msgs, cc_is_reset m := by
  cases e with
  | genNote p rs rd =>
      intro m hm
      simp only [step_event, play_note_msgs] at hm
      rcases List.mem_append.mp hm with hm | hm
      · exact h m hm
      · rcases List.mem_cons.mp hm with rfl | hm2
        · trivial
        · rcases List.mem_singleton.mp hm2 with rfl
          trivial
  | hand ix iy d g => exact process_hand_data_preserves_reset st ix iy d g h

/-- Coverage is an invariant of the whole session fold. -/
theorem session_fold_preserves_reset (vel : ℕ) :
    ∀ (events : List Event) (st : GCState),
      (∀ m ∈ st.cc.msgs, cc_is_reset m) →
      ∀ m ∈ (events.foldl (step_event vel) st).cc.msgs, cc_is_reset m := by
  intro events
  induction events with
  | nil => intro st h; simpa using h
  | cons e rest ih =>
      intro st h
      simp only [List.foldl_cons]
      exact ih _ (step_event_preserves_reset vel st e h)

/-- C1: whichever way the generation loop terminates (note-count limit,
KeyboardInterrupt, fatal predictor error), the trace of one `generate` call
is the session messages followed by the full cleanup and finally the port
close; the cleanup contains exactly the 128 note-offs for pitches 0..127,
and every controller number sent during the session receives a value-0
reset before the close. -/
theorem generate_shutdown_cleanup (velocity : ℕ) (events : List Event) (r : TermReason) :
    generateTrace velocity events r
      = (session_msgs velocity events ++ cleanup_msgs).map DevEvent.msg
        ++ [DevEvent.closed] ∧
    cleanup_msgs.filter Msg.isNoteOff = (List.range 128).map (fun p => Msg.note_off p 0) ∧
    (∀ cc v ch, Msg.control_change cc v ch ∈ session_msgs velocity events →
      Msg.control_change cc 0 0 ∈ cleanup_msgs) := by
  refine ⟨by cases r <;> rfl, by decide, ?_⟩
  intro cc v ch hm
  have h := session_fold_preserves_reset velocity events init_state
    (by simp [init_state]) _ hm
  simpa [cc_is_reset] using h

/-- Witness for C1: a session consisting of one hand sample sends CC 74, and
the cleanup sequence indeed resets controller 74. -/
theorem generate_shutdown_cleanup_witness :
    Msg.control_change 74 0 0 ∈ cleanup_msgs := by
  apply (generate_shutdown_cleanup 80 [Event.hand 0 0 (3/10) Gesture.other]
    TermReason.normal).2.2 74 0 0
  show Msg.control_change 74 0 0
    ∈ session_msgs 80 [Event.hand 0 0 (3/10) Gesture.other]
  norm_num [session_msgs, step_event, process_hand_data, smooth_value, pushCap,
    normalize_to_midi, send_cc, gesture_sends, lookupCC, init_state]

/-! ## C9 — smoothing buffers -/

/-- Counterexample for C9 as stated: two hand samples whose pinch distances
are 0.3 then 0.  The resonance (CC 71) values actually sent are 127 then 0,
i.e. the raw distance mapped directly; had the pinch distance been smoothed
through its own moving-average buffer as claimed, the second sample's value
would have been the mean `(0.3 + 0)/2 = 0.15`, mapping to 63, not 0. -/
theorem pinch_distance_not_smoothed :
    cc_values_for 71
        (process_hand_data (process_hand_data init_state 0 0 (3/10) Gesture.other)
          0 0 0 Gesture.other).cc.msgs
      = [127, 0] ∧
    normalize_to_midi ((3/10 + 0) / 2) 0 (3/10) = 63 ∧
    (0 : ℤ) < 63 := by
  refine ⟨?_, ?_, by norm_num⟩
  · norm_num [cc_values_for, process_hand_data, smooth_value, pushCap,
      normalize_to_midi, send_cc, gesture_sends, lookupCC, init_state]
    decide
  · norm_num [normalize_to_midi]

/-- C9 (amended): only position-x and position-y are smoothed, each through
its own capacity-5 moving-average buffer (the buffer keeps the most recent
at-most-5 samples and the mapped value is their mean); the pinch distance is
mapped and sent raw, with no smoothing buffer. -/
theorem smoothing_only_position_axes (st : GCState) (index_x index_y dist : ℚ)
    (g : Gesture) :
    (process_hand_data st index_x index_y dist g).position_buffer_x
      = pushCap 5 st.position_buffer_x index_x ∧
    (process_hand_data st index_x index_y dist g).position_buffer_y
      = pushCap 5 st.position_buffer_y index_y ∧
    (pushCap 5 st.position_buffer_x index_x).length
      = min (st.position_buffer_x.length + 1) 5 ∧
    (process_hand_data st index_x index_y dist g).cc
      = gesture_sends g
          (send_cc
            (send_cc
              (send_cc st.cc 74
                (normalize_to_midi (smooth_value st.position_buffer_x index_x).2 0 1) 0)
              91 (normalize_to_midi (1 - (smooth_value st.position_buffer_y index_y).2) 0 1) 0)
            71 (normalize_to_midi dist 0 (3/10)) 0) := by
  refine ⟨rfl, rfl, ?_, rfl⟩
  simp only [pushCap, List.length_drop, List.length_append, List.length_singleton]
  omega
